import Mathlib

/-!
Shallow embedding of the PayPal recurring-subscription subsystem:
`src/server/paymentProviders/paypal/subscription.ts` and
`src/server/lib/subscriptions.ts`.

Modelling conventions:
* The relational store is embedded as explicit record lists / record fields
  passed through functions; a row `update` is pure record update.
* Local database writes succeed unless a failure point is injected
  explicitly (used to study transactional atomicity of multi-write
  operations); external PayPal gateway calls (`paypalRequest`) are fallible
  and their outcomes are supplied by a `GatewayBehavior` oracle.
* Every external call issued by a run is recorded in a trace (`List ExtCall`)
  in issue order, whether or not the call succeeds.
* JS `null`/`undefined` fields become `Option`; integer cent amounts become
  `Int`; timestamps become `Nat` (the current clock is a parameter).
-/

namespace PaypalSub

/-- A row of the `PaypalProducts` table: one PayPal catalog product per
(collective, tier) pair. `id` is the PayPal-side product id (primary key). -/
structure PaypalProductRec where
  id : String
  CollectiveId : Nat
  TierId : Option Nat
deriving DecidableEq

/-- A row of the `PaypalPlans` table: a (amount, currency, interval) pricing
instance under a product. `id` is the PayPal-side plan id (primary key). -/
structure PaypalPlanRec where
  id : String
  ProductId : String
  amount : Int
  currency : String
  interval : String
deriving DecidableEq

/-- The slice of the local database holding PayPal products and plans. -/
structure PlanStore where
  products : List PaypalProductRec
  plans : List PaypalPlanRec
deriving DecidableEq

/-- Order lifecycle status (subset used by this subsystem). -/
inductive OrderStatus where
  | NEW
  | ACTIVE
  | ERROR
  | CANCELLED
deriving DecidableEq

/-- An `Order` row: a standing contribution intent. -/
structure Order where
  CollectiveId : Nat
  TierId : Option Nat
  totalAmount : Int
  currency : String
  interval : String
  quantity : Nat
  status : OrderStatus
  PaymentMethodId : Option Nat
deriving DecidableEq

/-- A `Subscription` row: the recurring-charge record paired with an Order. -/
structure Subscription where
  amount : Int
  currency : String
  interval : String
  quantity : Nat
  isActive : Bool
  isManagedExternally : Bool
  paypalSubscriptionId : Option String
  stripeSubscriptionId : Option String
  nextChargeDate : Nat
  nextPeriodStart : Nat
  chargeNumber : Nat
deriving DecidableEq

/-- A `PaymentMethod` row (the fields touched by this subsystem): `token`
holds the PayPal subscription id for paypal/subscription methods. -/
structure PaymentMethod where
  token : String
  name : Option String
deriving DecidableEq

/-- A `Tier` row (the fields used by `checkSubscriptionDetails`). -/
structure Tier where
  id : Nat
  CollectiveId : Nat
  amountType : String
  minimumAmount : Int
  amount : Int
  interval : Option String
deriving DecidableEq

/-- The PayPal-side subscription object returned by
`GET billing/subscriptions/:id` (the fields the code reads). -/
structure ExternalSubscription where
  id : String
  status : String
  plan_id : String
  subscriberEmail : String
deriving DecidableEq

/-- Failure cases of `verifySubscription`, in source order. -/
inductive VerifyError where
  | notApproved
  | planMismatch
  | amountMismatch
deriving DecidableEq

/-- Does a product row match the `include` clause of `verifySubscription`'s
plan query: `{ CollectiveId: order.CollectiveId, TierId: order.TierId }`? -/
def productMatchesOrder (store : PlanStore) (order : Order) (pl : PaypalPlanRec) : Bool :=
  (store.products.find? fun pr =>
    decide (pr.id = pl.ProductId ∧ pr.CollectiveId = order.CollectiveId ∧
      pr.TierId = order.TierId)).isSome

/-- `verifySubscription(order, paypalSubscription)`: checks approval status,
then that a local plan with the external `plan_id` exists under a product
matching the order's (CollectiveId, TierId), then that the plan amount
equals the order's total amount. -/
def verifySubscription (store : PlanStore) (order : Order)
    (paypalSubscription : ExternalSubscription) : Except VerifyError Unit :=
  if paypalSubscription.status ≠ "APPROVED" then
    .error .notApproved
  else
    match store.plans.find? fun pl =>
        decide (pl.id = paypalSubscription.plan_id) && productMatchesOrder store order pl with
    | none => .error .planMismatch
    | some plan =>
      if plan.amount ≠ order.totalAmount then .error .amountMismatch
      else .ok ()

/-- The property "a local Plan row `pl` matches the verification query for
this order and external plan id", as a proposition over the store. -/
def PlanMatchesQuery (store : PlanStore) (order : Order) (planId : String)
    (pl : PaypalPlanRec) : Prop :=
  pl.id = planId ∧
    ∃ pr ∈ store.products,
      pr.id = pl.ProductId ∧ pr.CollectiveId = order.CollectiveId ∧
        pr.TierId = order.TierId

instance (store : PlanStore) (order : Order) (planId : String) (pl : PaypalPlanRec) :
    Decidable (PlanMatchesQuery store order planId pl) := by
  unfold PlanMatchesQuery; infer_instance

lemma productMatchesOrder_iff (store : PlanStore) (order : Order) (pl : PaypalPlanRec) :
    productMatchesOrder store order pl = true ↔
      ∃ pr ∈ store.products,
        pr.id = pl.ProductId ∧ pr.CollectiveId = order.CollectiveId ∧
          pr.TierId = order.TierId := by
  unfold productMatchesOrder
  rw [Option.isSome_iff_exists]
  constructor
  · rintro ⟨pr, hpr⟩
    have hmem := List.mem_of_find?_eq_some hpr
    have hp := List.find?_some hpr
    simp only [decide_eq_true_eq] at hp
    exact ⟨pr, hmem, hp⟩
  · rintro ⟨pr, hmem, hp⟩
    have : (List.find? (fun pr =>
        decide (pr.id = pl.ProductId ∧ pr.CollectiveId = order.CollectiveId ∧
          pr.TierId = order.TierId)) store.products).isSome := by
      apply List.find?_isSome.2
      exact ⟨pr, hmem, by simp only [decide_eq_true_eq]; exact hp⟩
    rcases Option.isSome_iff_exists.1 this with ⟨q, hq⟩
    exact ⟨q, hq⟩

/-- The verification query's boolean predicate agrees with `PlanMatchesQuery`. -/
lemma verifyPred_iff (store : PlanStore) (order : Order) (ps : ExternalSubscription)
    (pl : PaypalPlanRec) :
    (decide (pl.id = ps.plan_id) && productMatchesOrder store order pl) = true ↔
      PlanMatchesQuery store order ps.plan_id pl := by
  rw [Bool.and_eq_true, decide_eq_true_eq, productMatchesOrder_iff]
  unfold PlanMatchesQuery
  tauto

/-- An external PayPal API call issued by the code (`paypalRequest`),
identified by its route and the parts of the payload the claims are about. -/
inductive ExtCall where
  | fetch (subscriptionId : String)
  | cancel (subscriptionId : String) (reason : String)
  | activate (subscriptionId : String)
  | createProduct (collectiveId : Nat) (tierId : Option Nat)
  | createPlan (productId : String)
deriving DecidableEq

/-- Ids the PayPal gateway would mint for newly created catalog resources:
the oracle for `createPaypalProduct` / `createPaypalPlan` responses. -/
structure PlanGateway where
  productId : String
  planId : String
deriving DecidableEq

/-- `getOrCreatePlan(host, collective, interval, amount, currency, tier)`:
find a product keyed by (collective, tier); among its plans, find one
matching (currency, interval, amount); create the missing resources
otherwise. Returns the plan, the updated store, and the external calls
issued. The product lookup uses `TierId: tier?.id || null` and the nested
`PaypalPlan.create` with its `product` include persists both rows in one
store write. -/
def getOrCreatePlan (gw : PlanGateway) (store : PlanStore) (collectiveId : Nat)
    (tierId : Option Nat) (interval : String) (amount : Int) (currency : String) :
    PaypalPlanRec × PlanStore × List ExtCall :=
  match store.products.find? fun pr =>
      decide (pr.CollectiveId = collectiveId ∧ pr.TierId = tierId) with
  | some product =>
    match store.plans.filter fun pl =>
        decide (pl.ProductId = product.id ∧ pl.currency = currency ∧
          pl.interval = interval ∧ pl.amount = amount) with
    | plan :: _ =>
      -- Product and matching plan both exist: return the existing plan.
      (plan, store, [])
    | [] =>
      -- Re-use the existing product, create a new plan under it.
      let plan : PaypalPlanRec :=
        { id := gw.planId, ProductId := product.id, amount, currency, interval }
      (plan, { store with plans := store.plans ++ [plan] }, [.createPlan product.id])
  | none =>
    -- Neither exists: create product then plan externally, persist both rows
    -- through one nested create.
    let product : PaypalProductRec := { id := gw.productId, CollectiveId := collectiveId, TierId := tierId }
    let plan : PaypalPlanRec :=
      { id := gw.planId, ProductId := gw.productId, amount, currency, interval }
    (plan, { products := store.products ++ [product], plans := store.plans ++ [plan] },
      [.createProduct collectiveId tierId, .createPlan gw.productId])

/-- Oracle for the gateway calls issued by `setupPaypalSubscriptionForOrder`:
the fetch outcome, and whether the cancel / activate requests fail. -/
structure GatewayBehavior where
  fetchResult : Except Unit ExternalSubscription
  cancelFails : Bool
  activateFails : Bool

/-- What went wrong inside the `try` block of
`setupPaypalSubscriptionForOrder` (the exception `e` caught at the end). -/
inductive Exn where
  | gatewayFetch
  | gatewayCancel
  | gatewayActivate
  | verification (e : VerifyError)
deriving DecidableEq

/-- Is this exception one of `verifySubscription`'s failures? -/
def Exn.isVerification : Exn → Bool
  | .verification _ => true
  | _ => false

/-- The error thrown by `setupPaypalSubscriptionForOrder` on failure: a fresh
`Error('Failed to activate PayPal subscription')` carrying the original
cause on its `rootException` property. -/
structure SetupError where
  rootException : Exn
deriving DecidableEq

/-- The mutable rows `setupPaypalSubscriptionForOrder` touches, plus the
plan store it reads and the current clock. `subscription` is the Order's
Subscription row (`order.SubscriptionId && order.getSubscription()`). -/
structure WorldState where
  order : Order
  subscription : Option Subscription
  paymentMethod : PaymentMethod
  store : PlanStore
  now : Nat
deriving DecidableEq

/-- `initialSubscriptionParams`: the `pick` of the three Subscription fields
snapshotted before the `try` block. -/
structure SubSnapshot where
  isManagedExternally : Bool
  stripeSubscriptionId : Option String
  paypalSubscriptionId : Option String
deriving DecidableEq

/-- Take the three-field snapshot of a Subscription row. -/
def subSnapshot (s : Subscription) : SubSnapshot :=
  { isManagedExternally := s.isManagedExternally
    stripeSubscriptionId := s.stripeSubscriptionId
    paypalSubscriptionId := s.paypalSubscriptionId }

/-- `existingSubscription.update(initialSubscriptionParams)`: write the three
snapshotted fields back, leaving every other field as it currently is. -/
def applySnapshot (s : Subscription) (snap : SubSnapshot) : Subscription :=
  { s with
    isManagedExternally := snap.isManagedExternally
    stripeSubscriptionId := snap.stripeSubscriptionId
    paypalSubscriptionId := snap.paypalSubscriptionId }

/-- `createSubscription(order, paypalSubscriptionId)`: the Subscription row
created for an order that had none. `stripeSubscriptionId` is not in the
create payload, so it takes the column default NULL. -/
def createSubscription (order : Order) (paypalSubscriptionId : String) (now : Nat) :
    Subscription :=
  { paypalSubscriptionId := some paypalSubscriptionId
    amount := order.totalAmount
    currency := order.currency
    interval := order.interval
    quantity := order.quantity
    isActive := false
    isManagedExternally := true
    nextChargeDate := now
    nextPeriodStart := now
    chargeNumber := 0
    stripeSubscriptionId := none }

/-- Outcome of the `try` block: the exception (if any), the world as mutated
so far, and the external calls issued so far. -/
structure BodyResult where
  error : Option Exn
  state : WorldState
  calls : List ExtCall
deriving DecidableEq

/-- Final step of the `try` block:
`paypalRequest('billing/subscriptions/:id/activate', ...)`. -/
def activateStep (gw : GatewayBehavior) (w : WorldState) (calls : List ExtCall) :
    BodyResult :=
  let calls := calls ++ [.activate w.paymentMethod.token]
  if gw.activateFails then { error := some .gatewayActivate, state := w, calls }
  else { error := none, state := w, calls }

/-- The `try` block of `setupPaypalSubscriptionForOrder`: fetch the external
subscription, verify it, update the payment method's name, cancel the prior
PayPal subscription when the existing Subscription row carries an id (the
cancel failure propagates — there is no catch around it), update or create
the Subscription row, and activate the new subscription. -/
def runBody (gw : GatewayBehavior) (w : WorldState) : BodyResult :=
  let paypalSubscriptionId := w.paymentMethod.token
  match gw.fetchResult with
  | .error _ =>
    { error := some .gatewayFetch, state := w, calls := [.fetch paypalSubscriptionId] }
  | .ok newPaypalSubscription =>
    match verifySubscription w.store w.order newPaypalSubscription with
    | .error ve =>
      { error := some (.verification ve), state := w, calls := [.fetch paypalSubscriptionId] }
    | .ok _ =>
      -- paymentMethod.update({ name: newPaypalSubscription.subscriber['email_address'] })
      let w := { w with paymentMethod :=
        { w.paymentMethod with name := some newPaypalSubscription.subscriberEmail } }
      match w.subscription with
      | some existingSubscription =>
        let updated := { existingSubscription with
          isManagedExternally := true
          stripeSubscriptionId := none
          paypalSubscriptionId := some paypalSubscriptionId }
        match existingSubscription.paypalSubscriptionId with
        | some oldId =>
          if gw.cancelFails then
            { error := some .gatewayCancel, state := w,
              calls := [.fetch paypalSubscriptionId, .cancel oldId "Changed payment method"] }
          else
            activateStep gw { w with subscription := some updated }
              [.fetch paypalSubscriptionId, .cancel oldId "Changed payment method"]
        | none =>
          activateStep gw { w with subscription := some updated } [.fetch paypalSubscriptionId]
      | none =>
        activateStep gw
          { w with subscription := some (createSubscription w.order paypalSubscriptionId w.now) }
          [.fetch paypalSubscriptionId]

/-- The `catch` block's restore: when a Subscription pre-existed, write its
snapshot back onto the row as it stands now; otherwise do nothing (the
restore never deletes a Subscription created during the attempt). -/
def restoreSnapshot (initial : Option Subscription) (state : WorldState) : WorldState :=
  match initial, state.subscription with
  | some initialSub, some sub =>
    { state with subscription := some (applySnapshot sub (subSnapshot initialSub)) }
  | _, _ => state

/-- `setupPaypalSubscriptionForOrder(order, paymentMethod)`: snapshot, run the
`try` block, and on failure restore the snapshot to the pre-existing
Subscription row (when there was one) and throw a wrapper error whose
`rootException` is the original cause. -/
def setupPaypalSubscriptionForOrder (gw : GatewayBehavior) (w : WorldState) :
    Except SetupError Unit × WorldState × List ExtCall :=
  let r := runBody gw w
  match r.error with
  | none => (.ok (), r.state, r.calls)
  | some e => (.error { rootException := e }, restoreSnapshot w.subscription r.state, r.calls)

/-- `checkSubscriptionDetails(order, tier, amountInCents)`: the validation run
before any mutation in `updateSubscriptionDetails`, in source order. -/
def checkSubscriptionDetails (order : Order) (tier : Option Tier) (amountInCents : Int) :
    Except String Unit :=
  if tier.any fun t => decide (t.CollectiveId ≠ order.CollectiveId) then
    .error "This tier does not belong to the given Collective"
  else if amountInCents < 100 then
    .error "Invalid amount."
  else if tier.any fun t => decide (t.amountType = "FLEXIBLE" ∧ amountInCents < t.minimumAmount) then
    .error "Amount is less than minimum value allowed for this Tier."
  else if tier.any fun t => decide (t.amountType = "FIXED" ∧ amountInCents < t.amount) then
    .error "Amount is incorrect for this Tier."
  else
    .ok ()

/-- A local store write of `updateSubscriptionDetails`, in issue order. Used
as a failure-injection point: the named write throws, every earlier write
has already been committed (none of them shares a transaction). -/
inductive WriteStep where
  | orderAmount
  | subAmount
  | orderInterval
  | subInterval
  | orderTier
deriving DecidableEq

/-- Observable outcome of `updateSubscriptionDetails`: the error (if any) and
the Order / Subscription rows as they stand afterwards. -/
structure SubDetailsResult where
  error : Option String
  order : Order
  subscription : Subscription
deriving DecidableEq

/-- The write-failure message used by the failure-injection model. -/
def writeFailed : String := "store write failed"

/-- Interval part of `updateSubscriptionDetails`: `newInterval` is the tier's
interval when present and not `flexible`, else the order's. -/
def newIntervalFor (order : Order) (tier : Option Tier) : String :=
  match tier with
  | some t =>
    match t.interval with
    | some i => if i ≠ "flexible" then i else order.interval
    | none => order.interval
  | none => order.interval

/-- The interval updates and the final `TierId` write of
`updateSubscriptionDetails`, with injected write failures. -/
def updateIntervalAndTier (failAt : Option WriteStep) (order : Order) (sub : Subscription)
    (tier : Option Tier) : SubDetailsResult :=
  let newInterval := newIntervalFor order tier
  let afterInterval : SubDetailsResult :=
    if newInterval ≠ order.interval then
      if failAt = some .orderInterval then
        { error := some writeFailed, order, subscription := sub }
      else
        let order1 := { order with interval := newInterval }
        if failAt = some .subInterval then
          { error := some writeFailed, order := order1, subscription := sub }
        else
          { error := none, order := order1, subscription := { sub with interval := newInterval } }
    else
      { error := none, order, subscription := sub }
  match afterInterval.error with
  | some e => { afterInterval with error := some e }
  | none =>
    if failAt = some .orderTier then
      { afterInterval with error := some writeFailed }
    else
      { error := none
        order := { afterInterval.order with TierId := tier.map (·.id) }
        subscription := afterInterval.subscription }

/-- `updateSubscriptionDetails(user, order, tier, amountInCents)`: validate,
then update Order and Subscription amounts when the amount changed, then
interval, then the Order's `TierId`. Each store write is a separate
non-transactional update; `failAt` injects a failure at one of them. -/
def updateSubscriptionDetails (failAt : Option WriteStep) (order : Order)
    (sub : Subscription) (tier : Option Tier) (amountInCents : Int) : SubDetailsResult :=
  match checkSubscriptionDetails order tier amountInCents with
  | .error msg => { error := some msg, order, subscription := sub }
  | .ok _ =>
    if amountInCents ≠ order.totalAmount then
      if failAt = some .orderAmount then
        { error := some writeFailed, order, subscription := sub }
      else
        let order1 := { order with totalAmount := amountInCents }
        if failAt = some .subAmount then
          { error := some writeFailed, order := order1, subscription := sub }
        else
          updateIntervalAndTier failAt order1 { sub with amount := amountInCents } tier
    else
      updateIntervalAndTier failAt order sub tier

/-- Failure-injection points inside `updatePaymentMethodForSubscription`'s
`sequelize.transaction` block. -/
inductive PmSwapStep where
  | orderWrite
  | subWrite
deriving DecidableEq

/-- Observable outcome of `updatePaymentMethodForSubscription`. -/
structure PmSwapResult where
  error : Option String
  order : Order
  subscription : Subscription
deriving DecidableEq

/-- `updatePaymentMethodForSubscription(user, order, newPaymentMethod)`:
authorization check, then — inside one `sequelize.transaction` — update the
Order's payment method and normalized status, and flip the Subscription's
external-management fields when the managed-externally flag changes.
A failure anywhere inside the transaction rolls back every write in it.
`userIsAdminOfNewPm`, `wasManagedExternally` and `isManagedExternally` stand
for `user.isAdminOfCollective(newPaymentMethodCollective)` and the two
`getIsSubscriptionManagedExternally` lookups (resolved outside this file's
sources). -/
def updatePaymentMethodForSubscription (userIsAdminOfNewPm : Bool)
    (wasManagedExternally isManagedExternally : Bool) (newPaymentMethodId : Nat)
    (failAt : Option PmSwapStep) (order : Order) (sub : Subscription) : PmSwapResult :=
  if !userIsAdminOfNewPm then
    { error := some "You do not have permission to use this payment method"
      order, subscription := sub }
  else
    let newStatus := if order.status = OrderStatus.ERROR then OrderStatus.ACTIVE else order.status
    match failAt with
    | some _ =>
      -- a write inside the transaction failed: every write is rolled back
      { error := some writeFailed, order, subscription := sub }
    | none =>
      { error := none
        order := { order with PaymentMethodId := some newPaymentMethodId, status := newStatus }
        subscription :=
          if wasManagedExternally ≠ isManagedExternally then
            { sub with isManagedExternally := isManagedExternally, paypalSubscriptionId := none }
          else sub }

/-! ### Sample rows used by concrete witnesses -/

/-- Sample product row. -/
def exProduct : PaypalProductRec := { id := "PROD-1", CollectiveId := 7, TierId := none }

/-- Sample plan row under `exProduct`. -/
def exPlan : PaypalPlanRec :=
  { id := "PLAN-1", ProductId := "PROD-1", amount := 1000, currency := "USD", interval := "month" }

/-- Sample store holding exactly `exProduct` and `exPlan`. -/
def exStore : PlanStore := { products := [exProduct], plans := [exPlan] }

/-- Sample order matching `exPlan`'s terms. -/
def exOrder : Order :=
  { CollectiveId := 7, TierId := none, totalAmount := 1000, currency := "USD",
    interval := "month", quantity := 1, status := .NEW, PaymentMethodId := none }

/-- Sample approved external subscription referencing `exPlan`. -/
def exPS : ExternalSubscription :=
  { id := "I-NEW", status := "APPROVED", plan_id := "PLAN-1",
    subscriberEmail := "payer@example.com" }

/-- Sample payment method whose token is the new external subscription id. -/
def exPM : PaymentMethod := { token := "I-NEW", name := none }

/-- Sample pre-existing Subscription row carrying an old external id. -/
def exSub : Subscription :=
  { amount := 1000, currency := "USD", interval := "month", quantity := 1,
    isActive := true, isManagedExternally := false,
    paypalSubscriptionId := some "I-OLD", stripeSubscriptionId := some "sub_stripe",
    nextChargeDate := 5, nextPeriodStart := 5, chargeNumber := 3 }

/-- Sample world with a pre-existing Subscription. -/
def exWorld : WorldState :=
  { order := exOrder, subscription := some exSub, paymentMethod := exPM,
    store := exStore, now := 42 }

/-! ### Helper lemmas -/

lemma unique_of_pairwise_ne_id {l : List PaypalPlanRec}
    (h : l.Pairwise fun a b => a.id ≠ b.id) :
    ∀ a ∈ l, ∀ b ∈ l, a.id = b.id → a = b := by
  intro a ha b hb hid
  by_contra hne
  exact (h.forall (fun {x y} hxy => hxy.symm) ha hb hne) hid

lemma find?_eq_some_iff_of_unique {α : Type} {p : α → Bool} {l : List α}
    (h : ∀ a ∈ l, ∀ b ∈ l, p a = true → p b = true → a = b) {x : α} :
    l.find? p = some x ↔ x ∈ l ∧ p x = true := by
  constructor
  · intro hf
    exact ⟨List.mem_of_find?_eq_some hf, List.find?_some hf⟩
  · rintro ⟨hmem, hpx⟩
    have hsome : (l.find? p).isSome := List.find?_isSome.2 ⟨x, hmem, hpx⟩
    rcases Option.isSome_iff_exists.1 hsome with ⟨y, hy⟩
    have : y = x :=
      h y (List.mem_of_find?_eq_some hy) x hmem (List.find?_some hy) hpx
    rw [hy, this]

lemma activateStep_state (gw : GatewayBehavior) (w : WorldState) (calls : List ExtCall) :
    (activateStep gw w calls).state = w := by
  unfold activateStep; by_cases h : gw.activateFails <;> simp [h]

lemma activateStep_calls (gw : GatewayBehavior) (w : WorldState) (calls : List ExtCall) :
    (activateStep gw w calls).calls = calls ++ [.activate w.paymentMethod.token] := by
  unfold activateStep; by_cases h : gw.activateFails <;> simp [h]

lemma activateStep_error (gw : GatewayBehavior) (w : WorldState) (calls : List ExtCall) :
    (activateStep gw w calls).error =
      if gw.activateFails then some .gatewayActivate else none := by
  unfold activateStep; by_cases h : gw.activateFails <;> simp [h]

lemma applySnapshot_subSnapshot (s : Subscription) : applySnapshot s (subSnapshot s) = s :=
  rfl

lemma set_subscription_self (w : WorldState) (s : Subscription)
    (h : w.subscription = some s) : { w with subscription := some s } = w := by
  rw [← h]

/-- The world after the payment-method name update of step 4. -/
def withPmName (w : WorldState) (email : String) : WorldState :=
  { w with paymentMethod := { w.paymentMethod with name := some email } }

/-- The Subscription row after the step-5 update of a pre-existing row. -/
def updatedSub (sub : Subscription) (newId : String) : Subscription :=
  { sub with
    isManagedExternally := true
    stripeSubscriptionId := none
    paypalSubscriptionId := some newId }

lemma runBody_fetch_err (gw : GatewayBehavior) (w : WorldState)
    (hf : gw.fetchResult = .error ()) :
    runBody gw w = ⟨some .gatewayFetch, w, [.fetch w.paymentMethod.token]⟩ := by
  simp [runBody, hf]

lemma runBody_verify_err (gw : GatewayBehavior) (w : WorldState)
    (ps : ExternalSubscription) (ve : VerifyError)
    (hf : gw.fetchResult = .ok ps)
    (hv : verifySubscription w.store w.order ps = .error ve) :
    runBody gw w = ⟨some (.verification ve), w, [.fetch w.paymentMethod.token]⟩ := by
  simp [runBody, hf, hv]

lemma runBody_cancel_err (gw : GatewayBehavior) (w : WorldState)
    (ps : ExternalSubscription) (sub : Subscription) (oldId : String)
    (hf : gw.fetchResult = .ok ps)
    (hv : verifySubscription w.store w.order ps = .ok ())
    (hsub : w.subscription = some sub)
    (hold : sub.paypalSubscriptionId = some oldId)
    (hc : gw.cancelFails = true) :
    runBody gw w = ⟨some .gatewayCancel, withPmName w ps.subscriberEmail,
      [.fetch w.paymentMethod.token, .cancel oldId "Changed payment method"]⟩ := by
  simp [runBody, hf, hv, hsub, hold, hc, withPmName]

lemma runBody_existing_noOld (gw : GatewayBehavior) (w : WorldState)
    (ps : ExternalSubscription) (sub : Subscription)
    (hf : gw.fetchResult = .ok ps)
    (hv : verifySubscription w.store w.order ps = .ok ())
    (hsub : w.subscription = some sub)
    (hold : sub.paypalSubscriptionId = none) :
    runBody gw w = activateStep gw
      { withPmName w ps.subscriberEmail with
        subscription := some (updatedSub sub w.paymentMethod.token) }
      [.fetch w.paymentMethod.token] := by
  simp [runBody, hf, hv, hsub, hold, withPmName, updatedSub]

lemma runBody_existing_old (gw : GatewayBehavior) (w : WorldState)
    (ps : ExternalSubscription) (sub : Subscription) (oldId : String)
    (hf : gw.fetchResult = .ok ps)
    (hv : verifySubscription w.store w.order ps = .ok ())
    (hsub : w.subscription = some sub)
    (hold : sub.paypalSubscriptionId = some oldId)
    (hc : gw.cancelFails = false) :
    runBody gw w = activateStep gw
      { withPmName w ps.subscriberEmail with
        subscription := some (updatedSub sub w.paymentMethod.token) }
      [.fetch w.paymentMethod.token, .cancel oldId "Changed payment method"] := by
  simp [runBody, hf, hv, hsub, hold, hc, withPmName, updatedSub]

lemma runBody_fresh (gw : GatewayBehavior) (w : WorldState)
    (ps : ExternalSubscription)
    (hf : gw.fetchResult = .ok ps)
    (hv : verifySubscription w.store w.order ps = .ok ())
    (hsub : w.subscription = none) :
    runBody gw w = activateStep gw
      { withPmName w ps.subscriberEmail with
        subscription := some (createSubscription w.order w.paymentMethod.token w.now) }
      [.fetch w.paymentMethod.token] := by
  simp [runBody, hf, hv, hsub, withPmName]

lemma applySnapshot_updatedSub (sub : Subscription) (tok : String) :
    applySnapshot (updatedSub sub tok) (subSnapshot sub) = sub :=
  rfl

lemma withPmName_subscription (w : WorldState) (email : String) :
    (withPmName w email).subscription = w.subscription :=
  rfl

lemma restoreSnapshot_noop (sub : Subscription) (st : WorldState)
    (h : st.subscription = some sub) : restoreSnapshot (some sub) st = st := by
  simp only [restoreSnapshot, h, applySnapshot_subSnapshot]
  exact set_subscription_self st sub h

lemma restoreSnapshot_updated (sub : Subscription) (tok : String) (st : WorldState)
    (h : st.subscription = some (updatedSub sub tok)) :
    restoreSnapshot (some sub) st = { st with subscription := some sub } := by
  simp only [restoreSnapshot, h, applySnapshot_updatedSub]

/-- The restore step never touches the PaymentMethod row. -/
lemma restoreSnapshot_paymentMethod (initial : Option Subscription) (st : WorldState) :
    (restoreSnapshot initial st).paymentMethod = st.paymentMethod := by
  unfold restoreSnapshot
  split <;> rfl

/-- Once the body is past verification, the PaymentMethod's name holds the
external subscriber's email, whatever happens later. -/
lemma runBody_state_pm_after_verify (gw : GatewayBehavior) (w : WorldState)
    (ps : ExternalSubscription)
    (hf : gw.fetchResult = .ok ps)
    (hv : verifySubscription w.store w.order ps = .ok ()) :
    (runBody gw w).state.paymentMethod =
      { w.paymentMethod with name := some ps.subscriberEmail } := by
  rcases hw : w.subscription with _ | sub
  · rw [runBody_fresh gw w ps hf hv hw, activateStep_state]; rfl
  · rcases hold : sub.paypalSubscriptionId with _ | oldId
    · rw [runBody_existing_noOld gw w ps sub hf hv hw hold, activateStep_state]; rfl
    · by_cases hc : gw.cancelFails
      · rw [runBody_cancel_err gw w ps sub oldId hf hv hw hold hc]; rfl
      · rw [runBody_existing_old gw w ps sub oldId hf hv hw hold (by simpa using hc),
          activateStep_state]
        rfl

/-- Inversion for the success branch of `setupPaypalSubscriptionForOrder`. -/
lemma setup_ok_inv (gw : GatewayBehavior) (w : WorldState) (w' : WorldState)
    (calls : List ExtCall)
    (h : setupPaypalSubscriptionForOrder gw w = (.ok (), w', calls)) :
    (runBody gw w).error = none ∧ w' = (runBody gw w).state ∧
      calls = (runBody gw w).calls := by
  rcases he : (runBody gw w).error with _ | ex <;>
    simp only [setupPaypalSubscriptionForOrder, he, Prod.mk.injEq] at h
  · exact ⟨rfl, h.2.1.symm, h.2.2.symm⟩
  · exact absurd h.1 (by simp)

/-- Inversion for the failure branch of `setupPaypalSubscriptionForOrder`. -/
lemma setup_err_inv (gw : GatewayBehavior) (w : WorldState) (e : SetupError)
    (w' : WorldState) (calls : List ExtCall)
    (h : setupPaypalSubscriptionForOrder gw w = (.error e, w', calls)) :
    (runBody gw w).error = some e.rootException ∧
      w' = restoreSnapshot w.subscription (runBody gw w).state ∧
      calls = (runBody gw w).calls := by
  rcases he : (runBody gw w).error with _ | ex <;>
    simp only [setupPaypalSubscriptionForOrder, he, Prod.mk.injEq] at h
  · exact absurd h.1 (by simp)
  · obtain ⟨h1, h2, h3⟩ := h
    injection h1 with h1'
    exact ⟨by rw [← h1'], h2.symm, h3.symm⟩

/-! ### Claim theorems -/

/-- C2: `verifySubscription` succeeds iff the external subscription's status
is `APPROVED`, a local Plan exists whose id equals the external `plan_id`
and whose parent Product's (CollectiveId, TierId) equals the Order's, and
that Plan's amount equals the Order's total amount; otherwise it fails with
the verification error of the first violated check, the checks being applied
in the order: approval, plan match, amount match. (Plan ids are pairwise
distinct: `id` is the table's primary key.) -/
theorem verifySubscription_characterization (store : PlanStore) (order : Order)
    (ps : ExternalSubscription)
    (huniq : store.plans.Pairwise fun a b => a.id ≠ b.id) :
    (verifySubscription store order ps = .ok () ↔
      ps.status = "APPROVED" ∧
        ∃ pl ∈ store.plans, PlanMatchesQuery store order ps.plan_id pl ∧
          pl.amount = order.totalAmount) ∧
    (verifySubscription store order ps = .error .notApproved ↔ ps.status ≠ "APPROVED") ∧
    (verifySubscription store order ps = .error .planMismatch ↔
      ps.status = "APPROVED" ∧
        ¬ ∃ pl ∈ store.plans, PlanMatchesQuery store order ps.plan_id pl) ∧
    (verifySubscription store order ps = .error .amountMismatch ↔
      ps.status = "APPROVED" ∧
        ∃ pl ∈ store.plans, PlanMatchesQuery store order ps.plan_id pl ∧
          pl.amount ≠ order.totalAmount) := by
  have huu : ∀ a ∈ store.plans, ∀ b ∈ store.plans,
      (decide (a.id = ps.plan_id) && productMatchesOrder store order a) = true →
      (decide (b.id = ps.plan_id) && productMatchesOrder store order b) = true →
      a = b := by
    intro a ha b hb hpa hpb
    have h1 := ((verifyPred_iff store order ps a).1 hpa).1
    have h2 := ((verifyPred_iff store order ps b).1 hpb).1
    exact unique_of_pairwise_ne_id huniq a ha b hb (h1.trans h2.symm)
  by_cases hs : ps.status = "APPROVED"
  · rcases hfind : store.plans.find? fun pl =>
        decide (pl.id = ps.plan_id) && productMatchesOrder store order pl with _ | plan
    · have hnone := List.find?_eq_none.1 hfind
      have hnoex : ¬ ∃ pl ∈ store.plans, PlanMatchesQuery store order ps.plan_id pl := by
        rintro ⟨pl, hmem, hq⟩
        exact hnone pl hmem ((verifyPred_iff store order ps pl).2 hq)
      have hrun : verifySubscription store order ps = .error .planMismatch := by
        simp [verifySubscription, hs, hfind]
      refine ⟨?_, ?_, ?_, ?_⟩ <;> rw [hrun]
      · exact ⟨fun h => absurd h (by simp), fun h => absurd ⟨h.2.choose, h.2.choose_spec.1,
          h.2.choose_spec.2.1⟩ hnoex⟩
      · exact ⟨fun h => absurd h (by simp), fun h => absurd hs h⟩
      · exact ⟨fun _ => ⟨hs, hnoex⟩, fun _ => rfl⟩
      · refine ⟨fun h => absurd h (by simp), ?_⟩
        rintro ⟨-, pl, hmem, hq, -⟩
        exact absurd ⟨pl, hmem, hq⟩ hnoex
    · have hplan := (find?_eq_some_iff_of_unique huu).1 hfind
      have hq : PlanMatchesQuery store order ps.plan_id plan :=
        (verifyPred_iff store order ps plan).1 hplan.2
      have hexEq : ∀ pl ∈ store.plans, PlanMatchesQuery store order ps.plan_id pl → pl = plan := by
        intro pl hmem hq'
        exact huu pl hmem plan hplan.1 ((verifyPred_iff store order ps pl).2 hq') hplan.2
      by_cases ham : plan.amount = order.totalAmount
      · have hrun : verifySubscription store order ps = .ok () := by
          simp [verifySubscription, hs, hfind, ham]
        refine ⟨?_, ?_, ?_, ?_⟩ <;> rw [hrun]
        · exact ⟨fun _ => ⟨hs, plan, hplan.1, hq, ham⟩, fun _ => rfl⟩
        · exact ⟨fun h => absurd h (by simp), fun h => absurd hs h⟩
        · refine ⟨fun h => absurd h (by simp), ?_⟩
          rintro ⟨-, hno⟩
          exact absurd ⟨plan, hplan.1, hq⟩ hno
        · refine ⟨fun h => absurd h (by simp), ?_⟩
          rintro ⟨-, pl, hmem, hq', hne⟩
          exact absurd (show pl.amount = order.totalAmount by
            rw [hexEq pl hmem hq']; exact ham) hne
      · have hrun : verifySubscription store order ps = .error .amountMismatch := by
          simp [verifySubscription, hs, hfind, ham]
        refine ⟨?_, ?_, ?_, ?_⟩ <;> rw [hrun]
        · refine ⟨fun h => absurd h (by simp), ?_⟩
          rintro ⟨-, pl, hmem, hq', ham'⟩
          exact absurd (show plan.amount = order.totalAmount by
            rw [← hexEq pl hmem hq']; exact ham') ham
        · exact ⟨fun h => absurd h (by simp), fun h => absurd hs h⟩
        · refine ⟨fun h => absurd h (by simp), ?_⟩
          rintro ⟨-, hno⟩
          exact absurd ⟨plan, hplan.1, hq⟩ hno
        · exact ⟨fun _ => ⟨hs, plan, hplan.1, hq, ham⟩, fun _ => rfl⟩
  · have hrun : verifySubscription store order ps = .error .notApproved := by
      simp [verifySubscription, hs]
    refine ⟨?_, ?_, ?_, ?_⟩ <;> rw [hrun]
    · exact ⟨fun h => absurd h (by simp), fun h => absurd h.1 hs⟩
    · exact ⟨fun _ => hs, fun _ => rfl⟩
    · exact ⟨fun h => absurd h (by simp), fun h => absurd h.1 hs⟩
    · exact ⟨fun h => absurd h (by simp), fun h => absurd h.1 hs⟩

/-- C2 witness: on the sample store/order and an approved subscription
referencing the matching plan, the characterization applies and
verification succeeds. -/
theorem verifySubscription_characterization_witness :
    verifySubscription exStore exOrder exPS = .ok () :=
  (verifySubscription_characterization exStore exOrder exPS (by decide)).1.mpr (by decide)

instance {ε α : Type} [DecidableEq ε] [DecidableEq α] : DecidableEq (Except ε α) := fun a b =>
  match a, b with
  | .error x, .error y =>
    if h : x = y then isTrue (by rw [h]) else isFalse (by simp [h])
  | .ok x, .ok y =>
    if h : x = y then isTrue (by rw [h]) else isFalse (by simp [h])
  | .error _, .ok _ => isFalse (by simp)
  | .ok _, .error _ => isFalse (by simp)

/-- Gateway oracle: fetch returns the sample approved subscription, every
other call succeeds. -/
def gwOk : GatewayBehavior :=
  { fetchResult := .ok exPS, cancelFails := false, activateFails := false }

/-- Gateway oracle: like `gwOk` but the cancel call fails. -/
def gwCancelFail : GatewayBehavior :=
  { fetchResult := .ok exPS, cancelFails := true, activateFails := false }

/-- Gateway oracle: like `gwOk` but the activate call fails. -/
def gwActivateFail : GatewayBehavior :=
  { fetchResult := .ok exPS, cancelFails := false, activateFails := true }

/-- `exWorld` after the step-4 payment-method name update. -/
def exWorldAfterPm : WorldState := withPmName exWorld "payer@example.com"

/-- C1: if `setupPaypalSubscriptionForOrder` raises after taking its snapshot
of a pre-existing Subscription, the Subscription's `isManagedExternally`,
`stripeSubscriptionId` and `paypalSubscriptionId` are restored to their
snapshot values, the raised error wraps the original cause on its
`rootException` (so it is distinguishable from the verification failures),
and when the cause is a verification failure the whole world — in particular
the pre-existing Subscription — is unchanged from before the call. -/
theorem setup_rollback_restores_snapshot (gw : GatewayBehavior) (w : WorldState)
    (sub : Subscription) (e : SetupError) (w' : WorldState) (calls : List ExtCall)
    (hsub : w.subscription = some sub)
    (hrun : setupPaypalSubscriptionForOrder gw w = (.error e, w', calls)) :
    (∃ sub', w'.subscription = some sub' ∧
      sub'.isManagedExternally = sub.isManagedExternally ∧
      sub'.stripeSubscriptionId = sub.stripeSubscriptionId ∧
      sub'.paypalSubscriptionId = sub.paypalSubscriptionId) ∧
    (runBody gw w).error = some e.rootException ∧
    (e.rootException.isVerification = true → w' = w) := by
  obtain ⟨he0, hw', hcalls⟩ := setup_err_inv gw w e w' calls hrun
  have main : w'.subscription = some sub ∧
      (e.rootException.isVerification = true → w' = w) := by
    have he := he0
    rcases hf : gw.fetchResult with u | ps
    · cases u
      simp only [runBody_fetch_err gw w hf] at he hw'
      rw [hsub, restoreSnapshot_noop sub w hsub] at hw'
      subst hw'
      exact ⟨hsub, fun _ => rfl⟩
    · rcases hv : verifySubscription w.store w.order ps with ve | u
      · simp only [runBody_verify_err gw w ps ve hf hv] at he hw'
        rw [hsub, restoreSnapshot_noop sub w hsub] at hw'
        subst hw'
        exact ⟨hsub, fun _ => rfl⟩
      · cases u
        rcases hold : sub.paypalSubscriptionId with _ | oldId
        · simp only [runBody_existing_noOld gw w ps sub hf hv hsub hold,
            activateStep_error, activateStep_state] at he hw'
          by_cases ha : gw.activateFails
          · rw [if_pos ha] at he
            injection he with he'
            rw [hsub, restoreSnapshot_updated sub w.paymentMethod.token _ rfl] at hw'
            subst hw'
            refine ⟨rfl, fun hver => ?_⟩
            rw [← he'] at hver
            simp [Exn.isVerification] at hver
          · rw [if_neg ha] at he
            exact absurd he (by simp)
        · by_cases hc : gw.cancelFails
          · simp only [runBody_cancel_err gw w ps sub oldId hf hv hsub hold hc] at he hw'
            injection he with he'
            rw [hsub, restoreSnapshot_noop sub _ (by rw [withPmName_subscription, hsub])] at hw'
            subst hw'
            refine ⟨by rw [withPmName_subscription, hsub], fun hver => ?_⟩
            rw [← he'] at hver
            simp [Exn.isVerification] at hver
          · simp only [runBody_existing_old gw w ps sub oldId hf hv hsub hold
              (by simpa using hc), activateStep_error, activateStep_state] at he hw'
            by_cases ha : gw.activateFails
            · rw [if_pos ha] at he
              injection he with he'
              rw [hsub, restoreSnapshot_updated sub w.paymentMethod.token _ rfl] at hw'
              subst hw'
              refine ⟨rfl, fun hver => ?_⟩
              rw [← he'] at hver
              simp [Exn.isVerification] at hver
            · rw [if_neg ha] at he
              exact absurd he (by simp)
  exact ⟨⟨sub, main.1, rfl, rfl, rfl⟩, he0, main.2⟩

/-- C1 witness: with a pre-existing Subscription and an activate-call failure,
the concrete run raises and the three snapshotted fields are restored. -/
theorem setup_rollback_restores_snapshot_witness :
    (∃ sub', exWorldAfterPm.subscription = some sub' ∧
      sub'.isManagedExternally = exSub.isManagedExternally ∧
      sub'.stripeSubscriptionId = exSub.stripeSubscriptionId ∧
      sub'.paypalSubscriptionId = exSub.paypalSubscriptionId) ∧
    (runBody gwActivateFail exWorld).error =
      some (SetupError.mk .gatewayActivate).rootException ∧
    ((SetupError.mk .gatewayActivate).rootException.isVerification = true →
      exWorldAfterPm = exWorld) :=
  setup_rollback_restores_snapshot gwActivateFail exWorld exSub
    { rootException := .gatewayActivate } exWorldAfterPm
    [.fetch "I-NEW", .cancel "I-OLD" "Changed payment method", .activate "I-NEW"]
    (by decide) (by decide)

/-- C9: when `setupPaypalSubscriptionForOrder` fails after verification has
succeeded, the PaymentMethod keeps the subscriber email written in step 4:
the rollback restores only the snapshotted Subscription fields and never
reverts the PaymentMethod mutation. -/
theorem setup_failure_keeps_pm_name (gw : GatewayBehavior) (w : WorldState)
    (ps : ExternalSubscription) (e : SetupError) (w' : WorldState) (calls : List ExtCall)
    (hf : gw.fetchResult = .ok ps)
    (hv : verifySubscription w.store w.order ps = .ok ())
    (hrun : setupPaypalSubscriptionForOrder gw w = (.error e, w', calls)) :
    w'.paymentMethod = { w.paymentMethod with name := some ps.subscriberEmail } := by
  obtain ⟨he, hw', hcalls⟩ := setup_err_inv gw w e w' calls hrun
  rw [hw', restoreSnapshot_paymentMethod, runBody_state_pm_after_verify gw w ps hf hv]

/-- C9 witness: the concrete activate-failure run keeps the email on the
payment method. -/
theorem setup_failure_keeps_pm_name_witness :
    exWorldAfterPm.paymentMethod = { exWorld.paymentMethod with name := some exPS.subscriberEmail } :=
  setup_failure_keeps_pm_name gwActivateFail exWorld exPS
    { rootException := .gatewayActivate } exWorldAfterPm
    [.fetch "I-NEW", .cancel "I-OLD" "Changed payment method", .activate "I-NEW"]
    rfl (by decide) (by decide)

/-- C10: a successful activation for an order with no pre-existing
Subscription creates a Subscription with `isActive = false`,
`isManagedExternally = true`, `chargeNumber = 0`, amount/currency/interval/
quantity copied from the Order, next-charge and next-period timestamps set
to now, and the new external id: it never sets the local active flag. -/
theorem setup_fresh_creates_inactive_subscription (gw : GatewayBehavior) (w : WorldState)
    (w' : WorldState) (calls : List ExtCall)
    (hnone : w.subscription = none)
    (hrun : setupPaypalSubscriptionForOrder gw w = (.ok (), w', calls)) :
    ∃ s, w'.subscription = some s ∧ s.isActive = false ∧ s.isManagedExternally = true ∧
      s.chargeNumber = 0 ∧ s.amount = w.order.totalAmount ∧ s.currency = w.order.currency ∧
      s.interval = w.order.interval ∧ s.quantity = w.order.quantity ∧
      s.nextChargeDate = w.now ∧ s.nextPeriodStart = w.now ∧
      s.paypalSubscriptionId = some w.paymentMethod.token := by
  obtain ⟨he, hw', hcalls⟩ := setup_ok_inv gw w w' calls hrun
  rcases hf : gw.fetchResult with u | ps
  · cases u
    simp only [runBody_fetch_err gw w hf] at he
    exact absurd he (by simp)
  · rcases hv : verifySubscription w.store w.order ps with ve | u
    · simp only [runBody_verify_err gw w ps ve hf hv] at he
      exact absurd he (by simp)
    · cases u
      rw [runBody_fresh gw w ps hf hv hnone, activateStep_state] at hw'
      subst hw'
      exact ⟨createSubscription w.order w.paymentMethod.token w.now,
        rfl, rfl, rfl, rfl, rfl, rfl, rfl, rfl, rfl, rfl, rfl⟩

/-- `exWorld` without a Subscription row. -/
def exWorldNoSub : WorldState := { exWorld with subscription := none }

/-- The world after a successful activation from `exWorldNoSub`. -/
def exWorldCreated : WorldState :=
  { withPmName exWorldNoSub "payer@example.com" with
    subscription := some (createSubscription exOrder "I-NEW" 42) }

/-- C10 witness: the concrete successful run from a world with no
Subscription creates the expected inactive, externally-managed row. -/
theorem setup_fresh_creates_inactive_subscription_witness :
    ∃ s, exWorldCreated.subscription = some s ∧ s.isActive = false ∧
      s.isManagedExternally = true ∧ s.chargeNumber = 0 ∧
      s.amount = exWorldNoSub.order.totalAmount ∧
      s.currency = exWorldNoSub.order.currency ∧
      s.interval = exWorldNoSub.order.interval ∧
      s.quantity = exWorldNoSub.order.quantity ∧
      s.nextChargeDate = exWorldNoSub.now ∧ s.nextPeriodStart = exWorldNoSub.now ∧
      s.paypalSubscriptionId = some exWorldNoSub.paymentMethod.token :=
  setup_fresh_creates_inactive_subscription gwOk exWorldNoSub exWorldCreated
    [.fetch "I-NEW", .activate "I-NEW"] rfl (by decide)

/-- C4 (amended): on the success path with a pre-existing Subscription, a
"cancel" call against the old id is issued iff the old id is present
(non-null) — even when it equals the new id — and the sequence is: fetch,
cancel (when applicable), update the local Subscription to the new id with
`isManagedExternally = true` and `stripeSubscriptionId` cleared, then
activate the new id. -/
theorem setup_success_existing_sequence (gw : GatewayBehavior) (w : WorldState)
    (sub : Subscription) (w' : WorldState) (calls : List ExtCall)
    (hsub : w.subscription = some sub)
    (hrun : setupPaypalSubscriptionForOrder gw w = (.ok (), w', calls)) :
    ∃ ps, gw.fetchResult = .ok ps ∧
      verifySubscription w.store w.order ps = .ok () ∧
      calls = .fetch w.paymentMethod.token ::
        ((match sub.paypalSubscriptionId with
          | some oldId => [ExtCall.cancel oldId "Changed payment method"]
          | none => []) ++ [.activate w.paymentMethod.token]) ∧
      ((∃ oldId reason, ExtCall.cancel oldId reason ∈ calls) ↔
        sub.paypalSubscriptionId.isSome = true) ∧
      w'.subscription = some (updatedSub sub w.paymentMethod.token) := by
  obtain ⟨he, hw', hcalls⟩ := setup_ok_inv gw w w' calls hrun
  rcases hf : gw.fetchResult with u | ps
  · cases u
    simp only [runBody_fetch_err gw w hf] at he
    exact absurd he (by simp)
  · rcases hv : verifySubscription w.store w.order ps with ve | u
    · simp only [runBody_verify_err gw w ps ve hf hv] at he
      exact absurd he (by simp)
    · cases u
      refine ⟨ps, rfl, hv, ?_⟩
      rcases hold : sub.paypalSubscriptionId with _ | oldId
      · rw [runBody_existing_noOld gw w ps sub hf hv hsub hold, activateStep_state] at hw'
        rw [runBody_existing_noOld gw w ps sub hf hv hsub hold, activateStep_calls] at hcalls
        subst hw'
        refine ⟨by simpa using hcalls, ?_, rfl⟩
        rw [hcalls]
        simp
      · by_cases hc : gw.cancelFails
        · simp only [runBody_cancel_err gw w ps sub oldId hf hv hsub hold hc] at he
          exact absurd he (by simp)
        · rw [runBody_existing_old gw w ps sub oldId hf hv hsub hold (by simpa using hc),
            activateStep_state] at hw'
          rw [runBody_existing_old gw w ps sub oldId hf hv hsub hold (by simpa using hc),
            activateStep_calls] at hcalls
          subst hw'
          refine ⟨by simpa using hcalls, ?_, rfl⟩
          rw [hcalls]
          constructor
          · intro _; simp [hold]
          · intro _; exact ⟨oldId, "Changed payment method", by simp⟩

/-- The sample Subscription whose old external id already equals the new
payment method token. -/
def exSubSameId : Subscription := { exSub with paypalSubscriptionId := some "I-NEW" }

/-- `exWorld` with `exSubSameId` as the Order's Subscription. -/
def exWorldSameId : WorldState := { exWorld with subscription := some exSubSameId }

/-- C4 counterexample: the pre-existing Subscription's old external id equals
the payment method's token (the new id), yet the run still issues a
"cancel" call against that id — refuting "a cancel call is issued only if
the old id differs from the new id". -/
theorem setup_cancel_same_id_counterexample :
    exSubSameId.paypalSubscriptionId = some exPM.token ∧
    (setupPaypalSubscriptionForOrder gwOk exWorldSameId).1 = .ok () ∧
    ExtCall.cancel "I-NEW" "Changed payment method" ∈
      (setupPaypalSubscriptionForOrder gwOk exWorldSameId).2.2 := by
  decide

/-- C4 witness: the concrete successful run from `exWorld` issues fetch, then
cancel of the old id, then activate of the new id, and updates the row. -/
theorem setup_success_existing_sequence_witness :
    ∃ ps, gwOk.fetchResult = .ok ps ∧
      verifySubscription exWorld.store exWorld.order ps = .ok () ∧
      [ExtCall.fetch "I-NEW", ExtCall.cancel "I-OLD" "Changed payment method",
        ExtCall.activate "I-NEW"] = .fetch exWorld.paymentMethod.token ::
        ((match exSub.paypalSubscriptionId with
          | some oldId => [ExtCall.cancel oldId "Changed payment method"]
          | none => []) ++ [.activate exWorld.paymentMethod.token]) ∧
      ((∃ oldId reason, ExtCall.cancel oldId reason ∈
          [ExtCall.fetch "I-NEW", ExtCall.cancel "I-OLD" "Changed payment method",
            ExtCall.activate "I-NEW"]) ↔
        exSub.paypalSubscriptionId.isSome = true) ∧
      ({ withPmName exWorld "payer@example.com" with
          subscription := some (updatedSub exSub "I-NEW") } : WorldState).subscription =
        some (updatedSub exSub exWorld.paymentMethod.token) :=
  setup_success_existing_sequence gwOk exWorld exSub
    { withPmName exWorld "payer@example.com" with
      subscription := some (updatedSub exSub "I-NEW") }
    [.fetch "I-NEW", .cancel "I-OLD" "Changed payment method", .activate "I-NEW"]
    rfl (by decide)

/-- C3 (amended): a failure of the "cancel" call against the old external id
is NOT tolerated: it aborts the flow through the rollback path — the
Subscription keeps (is restored to) its snapshot including the old id, no
"activate" call is issued, and the raised error wraps the cancel failure. -/
theorem setup_cancel_failure_aborts (gw : GatewayBehavior) (w : WorldState)
    (sub : Subscription) (oldId : String) (ps : ExternalSubscription)
    (hsub : w.subscription = some sub)
    (hold : sub.paypalSubscriptionId = some oldId)
    (hf : gw.fetchResult = .ok ps)
    (hv : verifySubscription w.store w.order ps = .ok ())
    (hc : gw.cancelFails = true) :
    setupPaypalSubscriptionForOrder gw w =
      (.error { rootException := .gatewayCancel }, withPmName w ps.subscriberEmail,
        [.fetch w.paymentMethod.token, .cancel oldId "Changed payment method"]) ∧
    (withPmName w ps.subscriberEmail).subscription = some sub := by
  have hr := runBody_cancel_err gw w ps sub oldId hf hv hsub hold hc
  constructor
  · simp only [setupPaypalSubscriptionForOrder, hr]
    rw [hsub, restoreSnapshot_noop sub _ (by rw [withPmName_subscription, hsub])]
  · rw [withPmName_subscription, hsub]

/-- C3 counterexample: with a pre-existing Subscription holding a different
old id and a failing cancel call, the concrete run aborts with an error, no
"activate" call is issued, and the Subscription still carries the old id —
refuting "cancel failure does not abort the flow, the Subscription is still
updated to the new id, and activate is still issued". -/
theorem setup_cancel_failure_counterexample :
    (setupPaypalSubscriptionForOrder gwCancelFail exWorld).1 =
      .error { rootException := .gatewayCancel } ∧
    ExtCall.activate "I-NEW" ∉ (setupPaypalSubscriptionForOrder gwCancelFail exWorld).2.2 ∧
    ((setupPaypalSubscriptionForOrder gwCancelFail exWorld).2.1.subscription.map
      fun s => s.paypalSubscriptionId) = some (some "I-OLD") := by
  decide

/-- C3 witness: the amended abort behaviour at the concrete cancel-failure
run. -/
theorem setup_cancel_failure_aborts_witness :
    setupPaypalSubscriptionForOrder gwCancelFail exWorld =
      (.error { rootException := .gatewayCancel },
        withPmName exWorld exPS.subscriberEmail,
        [.fetch exWorld.paymentMethod.token, .cancel "I-OLD" "Changed payment method"]) ∧
    (withPmName exWorld exPS.subscriberEmail).subscription = some exSub :=
  setup_cancel_failure_aborts gwCancelFail exWorld exSub "I-OLD" exPS
    rfl rfl rfl (by decide) rfl

/-- C5: starting from a store with no Product for (collective, tier) and with
the gateway's fresh product id unused, `getOrCreatePlan` creates exactly one
Product and one Plan, issuing exactly one create-product then one
create-plan external call; a second call with identical parameters returns
that same Plan, issues zero external calls, and performs no local writes. -/
theorem getOrCreatePlan_fresh_then_reuse (gw : PlanGateway) (store : PlanStore)
    (collectiveId : Nat) (tierId : Option Nat) (interval : String) (amount : Int)
    (currency : String)
    (hprod : ∀ pr ∈ store.products, ¬(pr.CollectiveId = collectiveId ∧ pr.TierId = tierId))
    (hfresh : ∀ pl ∈ store.plans, pl.ProductId ≠ gw.productId) :
    ∃ plan store1,
      getOrCreatePlan gw store collectiveId tierId interval amount currency =
        (plan, store1, [.createProduct collectiveId tierId, .createPlan gw.productId]) ∧
      store1.products = store.products ++
        [{ id := gw.productId, CollectiveId := collectiveId, TierId := tierId }] ∧
      store1.plans = store.plans ++ [plan] ∧
      (∀ gw2 : PlanGateway,
        getOrCreatePlan gw2 store1 collectiveId tierId interval amount currency =
          (plan, store1, [])) := by
  have hfind : store.products.find?
      (fun pr => decide (pr.CollectiveId = collectiveId ∧ pr.TierId = tierId)) = none :=
    List.find?_eq_none.2 fun pr hm => by
      simp only [decide_eq_true_eq]
      exact hprod pr hm
  refine ⟨{ id := gw.planId, ProductId := gw.productId, amount, currency, interval },
    { products := store.products ++
        [{ id := gw.productId, CollectiveId := collectiveId, TierId := tierId }],
      plans := store.plans ++
        [{ id := gw.planId, ProductId := gw.productId, amount, currency, interval }] },
    ?_, rfl, rfl, ?_⟩
  · simp only [getOrCreatePlan, hfind]
  · intro gw2
    have hfind1 : (store.products ++
        [({ id := gw.productId, CollectiveId := collectiveId, TierId := tierId } :
          PaypalProductRec)]).find?
        (fun pr => decide (pr.CollectiveId = collectiveId ∧ pr.TierId = tierId)) =
        some { id := gw.productId, CollectiveId := collectiveId, TierId := tierId } := by
      rw [List.find?_append, hfind, Option.none_or]
      simp
    have hfilter : ∀ prodId : String, prodId = gw.productId →
        (store.plans ++
          [({ id := gw.planId, ProductId := gw.productId, amount, currency, interval } :
            PaypalPlanRec)]).filter
          (fun pl => decide (pl.ProductId = prodId ∧ pl.currency = currency ∧
            pl.interval = interval ∧ pl.amount = amount)) =
        [{ id := gw.planId, ProductId := gw.productId, amount, currency, interval }] := by
      intro prodId hpid
      subst hpid
      rw [List.filter_append]
      have h1 : store.plans.filter
          (fun pl => decide (pl.ProductId = gw.productId ∧ pl.currency = currency ∧
            pl.interval = interval ∧ pl.amount = amount)) = [] := by
        rw [List.filter_eq_nil_iff]
        intro pl hm
        simp only [decide_eq_true_eq, not_and]
        intro hpid
        exact absurd hpid (hfresh pl hm)
      rw [h1]
      simp
    simp only [getOrCreatePlan, hfind1, hfilter gw.productId rfl]

/-- Fresh ids for the C5 witness run. -/
def gwPlan : PlanGateway := { productId := "PROD-9", planId := "PLAN-9" }

/-- C5 witness: from the empty store, the create-then-reuse behaviour at
concrete parameters. -/
theorem getOrCreatePlan_fresh_then_reuse_witness :
    ∃ plan store1,
      getOrCreatePlan gwPlan ⟨[], []⟩ 7 none "month" 1000 "USD" =
        (plan, store1, [.createProduct 7 none, .createPlan "PROD-9"]) ∧
      store1.products = [] ++ [{ id := "PROD-9", CollectiveId := 7, TierId := none }] ∧
      store1.plans = [] ++ [plan] ∧
      (∀ gw2 : PlanGateway,
        getOrCreatePlan gw2 store1 7 none "month" 1000 "USD" = (plan, store1, [])) :=
  getOrCreatePlan_fresh_then_reuse gwPlan ⟨[], []⟩ 7 none "month" 1000 "USD"
    (by decide) (by decide)

/-- C7: `updateSubscriptionDetails` validates before any mutation and fails
with a reason string exactly when the amount is below 100 minor units, or
the tier belongs to a different collective than the Order, or a FLEXIBLE
tier's minimum exceeds the amount, or a FIXED tier's amount exceeds the
amount; on any validation failure both rows are returned unchanged (for
every write-failure oracle) and the reason is non-empty. -/
theorem updateSubscriptionDetails_validation (failAt : Option WriteStep) (order : Order)
    (sub : Subscription) (tier : Option Tier) (amountInCents : Int) :
    ((∃ msg, checkSubscriptionDetails order tier amountInCents = .error msg) ↔
      (amountInCents < 100 ∨ ∃ t, tier = some t ∧
        (t.CollectiveId ≠ order.CollectiveId ∨
         (t.amountType = "FLEXIBLE" ∧ amountInCents < t.minimumAmount) ∨
         (t.amountType = "FIXED" ∧ amountInCents < t.amount)))) ∧
    (∀ msg, checkSubscriptionDetails order tier amountInCents = .error msg →
      updateSubscriptionDetails failAt order sub tier amountInCents =
        { error := some msg, order := order, subscription := sub } ∧ msg ≠ "") := by
  constructor
  · rcases tier with _ | t
    · simp only [checkSubscriptionDetails, Option.any_none, Bool.false_eq_true, if_false]
      by_cases h100 : amountInCents < 100
      · simp [h100]
      · simp [h100]
    · simp only [checkSubscriptionDetails, Option.any_some, decide_eq_true_eq]
      split_ifs with h1 h2 h3 h4
      · exact ⟨fun _ => Or.inr ⟨t, rfl, Or.inl h1⟩, fun _ => ⟨_, rfl⟩⟩
      · exact ⟨fun _ => Or.inl h2, fun _ => ⟨_, rfl⟩⟩
      · exact ⟨fun _ => Or.inr ⟨t, rfl, Or.inr (Or.inl h3)⟩, fun _ => ⟨_, rfl⟩⟩
      · exact ⟨fun _ => Or.inr ⟨t, rfl, Or.inr (Or.inr h4)⟩, fun _ => ⟨_, rfl⟩⟩
      · constructor
        · rintro ⟨msg, hmsg⟩
          exact absurd hmsg (by simp)
        · rintro (h100 | ⟨t2, ht2, hc⟩)
          · exact absurd h100 h2
          · have ht : t = t2 := by injection ht2
            subst ht
            rcases hc with hcol | hflex | hfix
            · exact absurd hcol h1
            · exact absurd hflex h3
            · exact absurd hfix h4
  · intro msg hmsg
    refine ⟨by simp only [updateSubscriptionDetails, hmsg], ?_⟩
    unfold checkSubscriptionDetails at hmsg
    split_ifs at hmsg <;> injection hmsg with h <;> rw [← h] <;> decide

/-- C7 witness: amount 50 is rejected as invalid and the rows are unchanged. -/
theorem updateSubscriptionDetails_validation_witness :
    updateSubscriptionDetails none exOrder exSub none 50 =
      { error := some "Invalid amount.", order := exOrder, subscription := exSub } ∧
    "Invalid amount." ≠ "" :=
  (updateSubscriptionDetails_validation none exOrder exSub none 50).2
    "Invalid amount." (by decide)

/-- A FLEXIBLE tier of collective 7 with minimum 200. -/
def exTierFlex : Tier :=
  { id := 3, CollectiveId := 7, amountType := "FLEXIBLE", minimumAmount := 200,
    amount := 0, interval := none }

/-- A FIXED tier of collective 7 with amount 500. -/
def exTierFixed : Tier :=
  { id := 4, CollectiveId := 7, amountType := "FIXED", minimumAmount := 0,
    amount := 500, interval := none }

example :
    checkSubscriptionDetails exOrder none 50 = .error "Invalid amount." ∧
    checkSubscriptionDetails exOrder none 100 = .ok () ∧
    checkSubscriptionDetails exOrder (some exTierFlex) 150 =
      .error "Amount is less than minimum value allowed for this Tier." ∧
    checkSubscriptionDetails exOrder (some exTierFlex) 200 = .ok () ∧
    checkSubscriptionDetails exOrder (some exTierFixed) 400 =
      .error "Amount is incorrect for this Tier." ∧
    checkSubscriptionDetails exOrder (some exTierFixed) 500 = .ok () := by
  decide

/-- C6 counterexample: in `updateSubscriptionDetails`, a failure of the
Subscription-amount write after the Order-amount write leaves the Order at
the new total and the Subscription at the old amount — an observable
intermediate state, so the amount change is not inside a single
transactional unit. -/
theorem updateSubscriptionDetails_partial_write_counterexample :
    (updateSubscriptionDetails (some .subAmount) exOrder exSub none 2000).error.isSome = true ∧
    (updateSubscriptionDetails (some .subAmount) exOrder exSub none 2000).order.totalAmount = 2000 ∧
    (updateSubscriptionDetails (some .subAmount) exOrder exSub none 2000).subscription.amount = 1000 ∧
    exOrder.totalAmount = 1000 ∧ exSub.amount = 1000 := by
  decide

/-- C6 (amended): the payment-method swap runs inside one transaction and is
all-or-nothing, but the amount change in `updateSubscriptionDetails` is two
separate non-transactional writes: when the Subscription write fails after
the Order write, the Order keeps the new total while the Subscription keeps
the old amount. -/
theorem store_write_atomicity :
    (∀ (admin wasME isME : Bool) (pmId : Nat) (failAt : Option PmSwapStep)
      (order : Order) (sub : Subscription),
      (updatePaymentMethodForSubscription admin wasME isME pmId failAt order sub).error.isSome = true →
      (updatePaymentMethodForSubscription admin wasME isME pmId failAt order sub).order = order ∧
      (updatePaymentMethodForSubscription admin wasME isME pmId failAt order sub).subscription = sub) ∧
    (∀ (order : Order) (sub : Subscription) (tier : Option Tier) (amountInCents : Int),
      checkSubscriptionDetails order tier amountInCents = .ok () →
      amountInCents ≠ order.totalAmount →
      (updateSubscriptionDetails (some .subAmount) order sub tier amountInCents).order.totalAmount = amountInCents ∧
      (updateSubscriptionDetails (some .subAmount) order sub tier amountInCents).subscription = sub ∧
      (updateSubscriptionDetails (some .subAmount) order sub tier amountInCents).error.isSome = true) := by
  constructor
  · intro admin wasME isME pmId failAt order sub herr
    cases admin
    · exact ⟨rfl, rfl⟩
    · rcases failAt with _ | step
      · simp [updatePaymentMethodForSubscription] at herr
      · exact ⟨rfl, rfl⟩
  · intro order sub tier amountInCents hok hne
    simp [updateSubscriptionDetails, hok, if_pos hne]

/-- C6 witness: the two branches of the atomicity characterization at
concrete inputs. -/
theorem store_write_atomicity_witness :
    ((updatePaymentMethodForSubscription false false true 5 none exOrder exSub).order = exOrder ∧
     (updatePaymentMethodForSubscription false false true 5 none exOrder exSub).subscription = exSub) ∧
    ((updateSubscriptionDetails (some .subAmount) exOrder exSub none 2000).order.totalAmount = 2000 ∧
     (updateSubscriptionDetails (some .subAmount) exOrder exSub none 2000).subscription = exSub ∧
     (updateSubscriptionDetails (some .subAmount) exOrder exSub none 2000).error.isSome = true) :=
  ⟨store_write_atomicity.1 false false true 5 none exOrder exSub (by decide),
   store_write_atomicity.2 exOrder exSub none 2000 (by decide) (by decide)⟩

end PaypalSub
